import Mathlib

/-!
Shallow embedding of `src/scm.c` (a storage-class-memory manager: a
file-backed, fixed-address mapped region with a header record and a bump
allocator), together with theorems settling the specification claims.

Machine integers (`size_t`, pointers) are modelled as `Nat` with explicit
reduction modulo `2 ^ 64` exactly where the C arithmetic can wrap.
System-call outcomes (`malloc`, `open`, `fstat`, `mmap`, ...) are supplied
by an explicit environment record, so `scm_open` becomes a pure function of
that environment.
-/

/-- Modulus of 64-bit `size_t` / pointer arithmetic. -/
def M64 : Nat := 2 ^ 64

/-- `#define SCM_SIGNATURE 0xDEEDBEED` -/
def SCM_SIGNATURE : Nat := 0xDEEDBEED

/-- `#define META_SIZE 24` -/
def META_SIZE : Nat := 24

/-- `#define VM_ADDR 0x600000000003` -/
def VM_ADDR : Nat := 0x600000000003

/-- `struct metadata`: the header record stored at offset 0 of the file. -/
structure Metadata where
  size : Nat
  signature : Nat
  checksum : Nat
deriving Repr, DecidableEq

/-- `struct scm`: the in-memory store handle. -/
structure Scm where
  fd : Nat
  mem : Nat
  utilized : Nat
  capacity : Nat
deriving Repr, DecidableEq

/-- `calculate_checksum`: `meta->size ^ meta->signature`. -/
def calculate_checksum (meta : Metadata) : Nat :=
  Nat.xor meta.size meta.signature

/-- `load_metadata`: validates signature and checksum; on success sets
`scm->utilized = meta->size` and returns 0, else returns -1 (modelled as
`none`). -/
def load_metadata (meta : Metadata) (scm : Scm) : Option Scm :=
  if meta.signature ≠ SCM_SIGNATURE then none
  else if meta.checksum ≠ calculate_checksum meta then none
  else some { scm with utilized := meta.size }

/-- `store_metadata`: writes `meta->size = scm->utilized`, then recomputes
`meta->checksum` from the updated record. The signature field is not
written. -/
def store_metadata (scm : Scm) (meta : Metadata) : Metadata :=
  let m1 := { meta with size := scm.utilized }
  { m1 with checksum := calculate_checksum m1 }

/-- `initialize_metadata` (fresh stores): `size = 0`,
`signature = SCM_SIGNATURE`, `checksum` recomputed; `scm->utilized = 0`. -/
def init_metadata (meta : Metadata) (scm : Scm) : Metadata × Scm :=
  let m1 := { meta with size := 0 }
  let m2 := { m1 with signature := SCM_SIGNATURE }
  let m3 := { m2 with checksum := calculate_checksum m2 }
  (m3, { scm with utilized := 0 })

/-- `scm_malloc`: bump allocation. The guard `scm->utilized + n <= capacity`
is evaluated in `size_t` arithmetic, i.e. modulo `2 ^ 64`; the advanced
cursor likewise. Returns the pointer (or `none` for NULL) and the updated
handle. -/
def scm_malloc (scm : Scm) (n : Nat) : Option Nat × Scm :=
  if (scm.utilized + n) % M64 ≤ scm.capacity then
    ((some ((scm.mem + scm.utilized) % M64)),
     { scm with utilized := (scm.utilized + n) % M64 })
  else
    (none, scm)

/-- A byte-addressed memory, written over the range
`[dst, dst + bytes.length)`. -/
def writeBytes (heap : Nat → Nat) (dst : Nat) (bytes : List Nat) : Nat → Nat :=
  fun a => if dst ≤ a ∧ a < dst + bytes.length then bytes.getD (a - dst) 0 else heap a

/-- Result of `scm_strdup`: the returned pointer value (0 for NULL), the
updated handle, the heap after the unconditional `strcpy`, and whether that
`strcpy` wrote through a NULL pointer (undefined behaviour in the C). -/
structure StrdupResult where
  ret : Nat
  scm : Scm
  heap : Nat → Nat
  nullWrite : Bool

/-- `scm_strdup`: allocates `strlen(s) + 1` bytes via `scm_malloc`, then
executes `strcpy(new_string, s)` without checking the allocation result.
The argument string is the list of its non-NUL bytes. -/
def scm_strdup (scm : Scm) (heap : Nat → Nat) (s : List Nat) : StrdupResult :=
  let length := s.length + 1
  match scm_malloc scm length with
  | (some p, scm1) =>
      { ret := p, scm := scm1, heap := writeBytes heap p (s ++ [0]), nullWrite := false }
  | (none, scm1) =>
      { ret := 0, scm := scm1, heap := writeBytes heap 0 (s ++ [0]), nullWrite := true }

/-- Environment of system-call outcomes consumed by `scm_open`. -/
structure Env where
  mallocOk : Bool
  openFd : Option Nat
  fstatOk : Bool
  isRegular : Bool
  fileSz : Nat
  pageSz : Nat
  brk : Nat
  truncOk : Bool
  mmapOk : Bool
  header : Metadata
deriving Repr, DecidableEq

/-- Result of `file_size`: the C return value, the handle contents as last
written (the C keeps using the pointer even after `FREE`), whether the
handle was freed, and whether the descriptor was closed. -/
structure FileSizeResult where
  ret : Int
  scm : Scm
  scmFreed : Bool
  fdClosed : Bool
deriving Repr, DecidableEq

/-- `file_size`: stats the file; on a regular file sets
`capacity = (st_size / page) * page`; then `return (scm->capacity) ? -1 : 0`
(-1 when the aligned capacity is non-zero, 0 when it is zero, as written). -/
def file_size (e : Env) (scm : Scm) : FileSizeResult :=
  if !e.fstatOk then
    { ret := -1, scm := scm, scmFreed := true, fdClosed := true }
  else if e.isRegular then
    let cap := (e.fileSz / e.pageSz) * e.pageSz
    let scm1 := { scm with capacity := cap }
    { ret := if cap ≠ 0 then -1 else 0, scm := scm1, scmFreed := false, fdClosed := false }
  else
    { ret := -1, scm := scm, scmFreed := true, fdClosed := false }

/-- Result of `scm_open`: the returned handle (`none` for NULL), the header
record of the backing file after the call, whether a descriptor that was
opened by this call is still open although the call failed, and whether the
call dereferenced the handle after `file_size` freed it. -/
structure OpenResult where
  res : Option Scm
  header : Metadata
  fdLeaked : Bool
  usedAfterFree : Bool
deriving Repr, DecidableEq

/-- `scm_open`, step by step as written in the C: `malloc` + `memset`,
`open`, `file_size` (return value ignored), the `sbrk` bound check
(`FREE(scm); return NULL` without closing the descriptor), the truncate
zero-fill, `mmap` (on failure `FREE(scm)` without closing the descriptor),
then `initialize_metadata` or `load_metadata` (return value ignored), and
finally the `META_SIZE` offset of the usable base. -/
def scm_open (e : Env) (truncate : Bool) : OpenResult :=
  if !e.mallocOk then
    { res := none, header := e.header, fdLeaked := false, usedAfterFree := false }
  else
    match e.openFd with
    | none =>
        { res := none, header := e.header, fdLeaked := false, usedAfterFree := false }
    | some fd =>
        let scm0 : Scm := { fd := fd, mem := 0, utilized := 0, capacity := 0 }
        let fs := file_size e scm0
        let scm1 := fs.scm
        let uaf := fs.scmFreed
        let vmaddr := (VM_ADDR / e.pageSz) * e.pageSz
        if vmaddr < e.brk then
          { res := none, header := e.header, fdLeaked := !fs.fdClosed, usedAfterFree := uaf }
        else if truncate && !e.truncOk then
          { res := none, header := e.header, fdLeaked := false, usedAfterFree := uaf }
        else
          let hdr1 := if truncate then ({ size := 0, signature := 0, checksum := 0 } : Metadata)
                      else e.header
          if !e.mmapOk then
            { res := none, header := hdr1, fdLeaked := !fs.fdClosed, usedAfterFree := uaf }
          else
            let scm2 := { scm1 with mem := vmaddr }
            if truncate then
              let (hdr2, scm3) := init_metadata hdr1 scm2
              { res := some { scm3 with mem := scm3.mem + META_SIZE }, header := hdr2,
                fdLeaked := false, usedAfterFree := uaf }
            else
              let scm3 := (load_metadata hdr1 scm2).getD scm2
              { res := some { scm3 with mem := scm3.mem + META_SIZE }, header := hdr1,
                fdLeaked := false, usedAfterFree := uaf }

/-- `scm_capacity`. -/
def scm_capacity (scm : Scm) : Nat := scm.capacity

/-- `scm_utilized`. -/
def scm_utilized (scm : Scm) : Nat := scm.utilized

/-- `scm_close`, metadata effect: the pointer is moved back by `META_SIZE`
and `store_metadata` writes the header; returns the header as persisted. -/
def scm_close (scm : Scm) (meta : Metadata) : Metadata :=
  let scm1 := { scm with mem := scm.mem - META_SIZE }
  store_metadata scm1 meta

/-- A healthy environment: 8192-byte regular file, 4096-byte pages, low
program break, all system calls succeed, header as written by a fresh
store. -/
def envFresh : Env :=
  { mallocOk := true, openFd := some 3, fstatOk := true, isRegular := true,
    fileSz := 8192, pageSz := 4096, brk := 4096, truncOk := true, mmapOk := true,
    header := { size := 0, signature := SCM_SIGNATURE, checksum := SCM_SIGNATURE } }

/-- Environment whose file header was overwritten with unrelated data
(signature 0xABCD instead of the SCM signature). -/
def envBadHeader : Env :=
  { envFresh with header := { size := 7, signature := 0xABCD, checksum := 9 } }

/-- Environment with a 100-byte regular file: the page-aligned capacity is
zero. -/
def envTiny : Env :=
  { envFresh with fileSz := 100 }

/-- Environment whose path names a non-regular file. -/
def envNonReg : Env :=
  { envFresh with isRegular := false }

/-- Environment whose program break lies above the fixed mapping address. -/
def envHighBrk : Env :=
  { envFresh with openFd := some 4, brk := 0x700000000000 }

/-- Environment in which the `mmap` call fails. -/
def envMmapFail : Env :=
  { envFresh with openFd := some 4, mmapOk := false }

/-! ## Helper lemmas -/

/-- The bump allocator re-establishes `utilized ≤ capacity` whenever it held
before the call: the advanced cursor is exactly the guarded quantity. -/
lemma scm_malloc_inv (scm : Scm) (n : Nat) (h : scm.utilized ≤ scm.capacity) :
    (scm_malloc scm n).2.utilized ≤ (scm_malloc scm n).2.capacity := by
  unfold scm_malloc
  split
  · next hg => simpa using hg
  · simpa using h

/-- The handle coming out of `scm_strdup` is the one produced by the inner
`scm_malloc` call. -/
lemma scm_strdup_scm (scm : Scm) (heap : Nat → Nat) (s : List Nat) :
    (scm_strdup scm heap s).scm = (scm_malloc scm (s.length + 1)).2 := by
  unfold scm_strdup
  cases hmm : scm_malloc scm (s.length + 1) with
  | mk o scm1 => cases o <;> simp [hmm]

/-! ## Claim theorems -/

/-- C7: the metadata load succeeds iff the stored signature equals the
expected constant and the stored checksum equals size XOR signature; on
success the handle's utilized is set to the stored size. -/
theorem c7_load_iff (meta : Metadata) (scm : Scm) :
    ((load_metadata meta scm).isSome = true ↔
      (meta.signature = SCM_SIGNATURE ∧
        meta.checksum = Nat.xor meta.size meta.signature)) ∧
    (∀ scm1, load_metadata meta scm = some scm1 → scm1.utilized = meta.size) := by
  constructor
  · unfold load_metadata calculate_checksum
    by_cases h1 : meta.signature = SCM_SIGNATURE <;>
      by_cases h2 : meta.checksum = Nat.xor meta.size meta.signature <;>
        simp [h1, h2]
  · intro scm1 h
    unfold load_metadata at h
    split at h
    · exact absurd h (by simp)
    · split at h
      · exact absurd h (by simp)
      · injection h with h
        subst h
        rfl

/-- C7 witness: a concrete valid header is accepted and yields the stored
size as utilized. -/
theorem c7_load_iff_witness :
    (load_metadata ⟨5, SCM_SIGNATURE, Nat.xor 5 SCM_SIGNATURE⟩ ⟨3, 0, 0, 4096⟩).isSome = true ∧
    (⟨3, 0, 5, 4096⟩ : Scm).utilized = 5 :=
  ⟨(c7_load_iff ⟨5, SCM_SIGNATURE, Nat.xor 5 SCM_SIGNATURE⟩ ⟨3, 0, 0, 4096⟩).1.mpr ⟨rfl, rfl⟩,
   (c7_load_iff ⟨5, SCM_SIGNATURE, Nat.xor 5 SCM_SIGNATURE⟩ ⟨3, 0, 0, 4096⟩).2
     ⟨3, 0, 5, 4096⟩ (by decide)⟩

/-- C10: the close-time writeback (store_metadata via scm_close) sets the
size field to utilized and the checksum field to size XOR signature, and
leaves the signature field exactly as it was before close. -/
theorem c10_close_preserves_signature (scm : Scm) (meta : Metadata) :
    (scm_close scm meta).signature = meta.signature ∧
    (scm_close scm meta).size = scm.utilized ∧
    (scm_close scm meta).checksum = Nat.xor scm.utilized meta.signature :=
  ⟨rfl, rfl, rfl⟩

/-- C6: for a handle whose header carries the system signature (true of
every header this system initializes; the store operation never clears it),
storing utilized = U and loading it back succeeds and yields utilized = U,
for any U ≤ capacity. -/
theorem c6_roundtrip (meta : Metadata) (scm : Scm) (U : Nat)
    (hsig : meta.signature = SCM_SIGNATURE) (_hU : U ≤ scm.capacity) :
    load_metadata (store_metadata { scm with utilized := U } meta)
      { scm with utilized := U } = some { scm with utilized := U } := by
  unfold load_metadata store_metadata calculate_checksum
  simp [hsig]

/-- C6 witness: round trip at U = 6 on a fresh header. -/
theorem c6_roundtrip_witness :
    load_metadata
      (store_metadata { fd := 3, mem := 24, utilized := 6, capacity := 4096 }
        ⟨0, SCM_SIGNATURE, SCM_SIGNATURE⟩)
      { fd := 3, mem := 24, utilized := 6, capacity := 4096 } =
    some { fd := 3, mem := 24, utilized := 6, capacity := 4096 } :=
  c6_roundtrip ⟨0, SCM_SIGNATURE, SCM_SIGNATURE⟩ ⟨3, 24, 0, 4096⟩ 6 rfl (by decide)

/-- C9: for every handle with 0 < utilized ≤ capacity < 2^64 there is a
request size n strictly greater than the remaining room capacity - utilized
for which scm_malloc nevertheless returns a pointer: the guard
utilized + n ≤ capacity is evaluated modulo 2^64 and wraps. -/
theorem c9_wraparound_alloc (scm : Scm)
    (h0 : 0 < scm.utilized) (h1 : scm.utilized ≤ scm.capacity)
    (h2 : scm.capacity < M64) :
    ∃ n, n < M64 ∧ scm.capacity - scm.utilized < n ∧
      (scm_malloc scm n).1.isSome = true := by
  have hM : 0 < M64 := by decide
  refine ⟨M64 - scm.utilized, Nat.sub_lt hM h0, by omega, ?_⟩
  have hsum : (scm.utilized + (M64 - scm.utilized)) % M64 = 0 := by
    have h : scm.utilized + (M64 - scm.utilized) = M64 := by omega
    rw [h, Nat.mod_self]
  unfold scm_malloc
  rw [hsum]
  simp

/-- C9 witness: a concrete handle with utilized = 8, capacity = 4096. -/
theorem c9_wraparound_alloc_witness :
    ∃ n, n < M64 ∧ (⟨3, 24, 8, 4096⟩ : Scm).capacity - (⟨3, 24, 8, 4096⟩ : Scm).utilized < n ∧
      (scm_malloc ⟨3, 24, 8, 4096⟩ n).1.isSome = true :=
  c9_wraparound_alloc ⟨3, 24, 8, 4096⟩ (by decide) (by decide) (by decide)

/-- C5 counterexample: with utilized = 8 and capacity = 4096, the request
n = 2^64 - 4 satisfies utilized + n > capacity, so the claim requires the
Exhausted failure with the handle unchanged; the code instead returns a
pointer and rewrites utilized to 4, because its guard wraps modulo 2^64. -/
theorem c5_wrap_allocates :
    (⟨3, 24, 8, 4096⟩ : Scm).utilized + (M64 - 4) > (⟨3, 24, 8, 4096⟩ : Scm).capacity ∧
    (scm_malloc ⟨3, 24, 8, 4096⟩ (M64 - 4)).1 = some 32 ∧
    (scm_malloc ⟨3, 24, 8, 4096⟩ (M64 - 4)).2.utilized = 4 := by decide

/-- C5 amended: if utilized + n ≤ capacity (exact arithmetic) then
scm_malloc returns the address usable_base + utilized and advances utilized
by exactly n; if utilized + n exceeds capacity without reaching 2^64, it
returns the Exhausted failure with the handle unchanged. Requests for which
utilized + n ≥ 2^64 wrap around the guard and may succeed. -/
theorem c5_malloc_spec (scm : Scm) (n : Nat) (hcap : scm.capacity < M64) :
    (scm.utilized + n ≤ scm.capacity →
      scm_malloc scm n =
        (some ((scm.mem + scm.utilized) % M64), { scm with utilized := scm.utilized + n })) ∧
    (scm.capacity < scm.utilized + n → scm.utilized + n < M64 →
      scm_malloc scm n = (none, scm)) := by
  constructor
  · intro h
    have hmod : (scm.utilized + n) % M64 = scm.utilized + n :=
      Nat.mod_eq_of_lt (lt_of_le_of_lt h hcap)
    unfold scm_malloc
    rw [hmod, if_pos h]
  · intro h hlt
    have hmod : (scm.utilized + n) % M64 = scm.utilized + n := Nat.mod_eq_of_lt hlt
    unfold scm_malloc
    rw [hmod, if_neg (Nat.not_le.mpr h)]

/-- C5 witness: a fitting request advances utilized; an oversized but
non-wrapping request fails and leaves the handle unchanged. -/
theorem c5_malloc_spec_witness :
    scm_malloc ⟨3, 24, 8, 4096⟩ 16 =
      (some ((24 + 8) % M64), { fd := 3, mem := 24, utilized := 8 + 16, capacity := 4096 }) ∧
    scm_malloc ⟨3, 24, 4090, 4096⟩ 100 = (none, ⟨3, 24, 4090, 4096⟩) :=
  ⟨(c5_malloc_spec ⟨3, 24, 8, 4096⟩ 16 (by decide)).1 (by decide),
   (c5_malloc_spec ⟨3, 24, 4090, 4096⟩ 100 (by decide)).2 (by decide) (by decide)⟩

/-- C4 counterexample: a header that passes both validation checks but
stores size = 4097 on a handle of capacity 4096 is accepted by
load_metadata, which sets utilized = 4097 > capacity, violating the
invariant the claim says is preserved. -/
theorem c4_load_overflows_capacity :
    load_metadata ⟨4097, SCM_SIGNATURE, Nat.xor 4097 SCM_SIGNATURE⟩ ⟨3, 24, 0, 4096⟩ =
      some ⟨3, 24, 4097, 4096⟩ ∧
    (⟨3, 24, 4097, 4096⟩ : Scm).utilized > (⟨3, 24, 4097, 4096⟩ : Scm).capacity := by decide

/-- C4 amended: 0 ≤ utilized ≤ capacity is established by a fresh
(truncate) open and preserved by allocate, duplicate_string, and the
close-time metadata store; the metadata load preserves it only under the
additional hypothesis that the stored size is at most the capacity — a
validated header with a larger size field drives utilized above capacity. -/
theorem c4_invariant_preserved :
    (∀ scm n, scm.utilized ≤ scm.capacity →
      (scm_malloc scm n).2.utilized ≤ (scm_malloc scm n).2.capacity) ∧
    (∀ scm heap s, scm.utilized ≤ scm.capacity →
      (scm_strdup scm heap s).scm.utilized ≤ (scm_strdup scm heap s).scm.capacity) ∧
    (∀ meta scm scm1, meta.size ≤ scm.capacity →
      load_metadata meta scm = some scm1 → scm1.utilized ≤ scm1.capacity) ∧
    (∀ e s, (scm_open e true).res = some s → s.utilized ≤ s.capacity) := by
  refine ⟨scm_malloc_inv, ?_, ?_, ?_⟩
  · intro scm heap s h
    rw [scm_strdup_scm]
    exact scm_malloc_inv scm (s.length + 1) h
  · intro meta scm scm1 hsz h
    unfold load_metadata at h
    split at h
    · exact absurd h (by simp)
    · split at h
      · exact absurd h (by simp)
      · injection h with h
        subst h
        exact hsz
  · intro e s h
    unfold scm_open at h
    by_cases hm : e.mallocOk
    · rw [hm] at h
      cases hfd : e.openFd with
      | none => rw [hfd] at h; simp at h
      | some fd =>
        rw [hfd] at h
        simp only [Bool.not_true, Bool.false_eq_true, if_false] at h
        by_cases hbrk : (VM_ADDR / e.pageSz) * e.pageSz < e.brk
        · simp [hbrk] at h
        · by_cases ht : e.truncOk
          · by_cases hmp : e.mmapOk
            · simp [hbrk, ht, hmp, init_metadata] at h
              subst h
              exact Nat.zero_le _
            · simp [hbrk, ht, hmp] at h
          · simp [hbrk, ht] at h
    · simp [hm] at h

/-- C4 witness: the invariant holds across a concrete allocation, a
concrete string duplication, a concrete in-bounds metadata load, and the
handle returned by a concrete fresh open. -/
theorem c4_invariant_preserved_witness :
    (scm_malloc ⟨3, 24, 8, 4096⟩ 16).2.utilized ≤ (scm_malloc ⟨3, 24, 8, 4096⟩ 16).2.capacity ∧
    (scm_strdup ⟨3, 24, 8, 4096⟩ (fun _ => 0) [104, 105]).scm.utilized ≤
      (scm_strdup ⟨3, 24, 8, 4096⟩ (fun _ => 0) [104, 105]).scm.capacity ∧
    (⟨3, 24, 100, 4096⟩ : Scm).utilized ≤ (⟨3, 24, 100, 4096⟩ : Scm).capacity ∧
    (⟨3, 105553116266520, 0, 8192⟩ : Scm).utilized ≤
      (⟨3, 105553116266520, 0, 8192⟩ : Scm).capacity :=
  ⟨c4_invariant_preserved.1 ⟨3, 24, 8, 4096⟩ 16 (by decide),
   c4_invariant_preserved.2.1 ⟨3, 24, 8, 4096⟩ (fun _ => 0) [104, 105] (by decide),
   c4_invariant_preserved.2.2.1 ⟨100, SCM_SIGNATURE, Nat.xor 100 SCM_SIGNATURE⟩
     ⟨3, 24, 0, 4096⟩ ⟨3, 24, 100, 4096⟩ (by decide) (by decide),
   c4_invariant_preserved.2.2.2 envFresh ⟨3, 105553116266520, 0, 8192⟩ (by decide)⟩

/-- C1: on reopen of a file whose header fails the validity check (the
signature is 0xABCD, not the SCM signature, so load_metadata itself
rejects it), scm_open nevertheless returns a usable handle whose utilized
is the memset zero — the load_metadata return value is discarded at the
call site. -/
theorem c1_reopen_accepts_invalid_header :
    envBadHeader.header.signature ≠ SCM_SIGNATURE ∧
    load_metadata envBadHeader.header ⟨3, 105553116266496, 0, 8192⟩ = none ∧
    (scm_open envBadHeader false).res = some ⟨3, 105553116266520, 0, 8192⟩ := by decide

/-- C2: file_size returns 0 (success) exactly when the page-aligned
capacity is zero and -1 when it is non-zero — the reverse of its own
comment — and scm_open ignores that return value entirely: a 100-byte
regular file (aligned capacity 0) still yields a handle with capacity 0,
and a non-regular file has the handle freed inside file_size yet scm_open
keeps dereferencing it and still returns it. -/
theorem c2_open_ignores_size_check :
    (file_size envTiny ⟨3, 0, 0, 0⟩).scm.capacity = 0 ∧
    (file_size envTiny ⟨3, 0, 0, 0⟩).ret = 0 ∧
    (file_size envFresh ⟨3, 0, 0, 0⟩).ret = -1 ∧
    (scm_open envTiny false).res = some ⟨3, 105553116266520, 0, 0⟩ ∧
    (file_size envNonReg ⟨3, 0, 0, 0⟩).scmFreed = true ∧
    (scm_open envNonReg false).usedAfterFree = true ∧
    (scm_open envNonReg false).res.isSome = true := by decide

/-- C3: on a full store (utilized = capacity = 4096) the inner scm_malloc
returns NULL, yet scm_strdup executes strcpy through that NULL pointer
instead of propagating the Exhausted failure; when space is available the
copy is correct: length(s) + 1 bytes are consumed and the bytes of s plus
the terminating NUL appear at the returned address. -/
theorem c3_strdup_null_write :
    (scm_malloc ⟨3, 24, 4096, 4096⟩ 2).1 = none ∧
    (scm_strdup ⟨3, 24, 4096, 4096⟩ (fun _ => 0) [120]).nullWrite = true ∧
    (scm_strdup ⟨3, 24, 4096, 4096⟩ (fun _ => 0) [120]).ret = 0 ∧
    (scm_strdup ⟨3, 24, 0, 4096⟩ (fun _ => 0) [104, 105]).ret = 24 ∧
    (scm_strdup ⟨3, 24, 0, 4096⟩ (fun _ => 0) [104, 105]).scm.utilized = 3 ∧
    (scm_strdup ⟨3, 24, 0, 4096⟩ (fun _ => 0) [104, 105]).heap 24 = 104 ∧
    (scm_strdup ⟨3, 24, 0, 4096⟩ (fun _ => 0) [104, 105]).heap 25 = 105 ∧
    (scm_strdup ⟨3, 24, 0, 4096⟩ (fun _ => 0) [104, 105]).heap 26 = 0 := by decide

/-- C8: on the address-unavailable path (program break above the fixed
mapping address) and on the mmap-failure path, scm_open returns the failure
but the already-opened file descriptor is never closed: only FREE(scm) runs
before the return. -/
theorem c8_open_leaks_fd :
    ((scm_open envHighBrk false).res = none ∧ (scm_open envHighBrk false).fdLeaked = true) ∧
    ((scm_open envMmapFail false).res = none ∧ (scm_open envMmapFail false).fdLeaked = true) := by
  decide
